import Mathlib

/-!
# Verification development for the lol-scout core

Shallow embedding of the extraction-and-scoring pipeline of the lol-scout
repository (`src/analysis.py`, `src/scraper.py`), together with theorems
settling the frozen specification claims.

Modelling conventions, used throughout:

* Python floats are modelled as exact rationals (`ℚ`); `round(x, d)` is
  modelled by `pyRound`, the round-half-to-even rule Python uses.
* Python dicts that play the role of records are modelled as structures.
  A field read with `d.get(k, default)` becomes a plain field whose absence
  is identified with the default, or an `Option` field plus `getD` at the
  use site when the code distinguishes absence (or falsiness) explicitly.
* `math.log10` is transcendental and is abstracted as a function parameter
  `lg : Nat → ℚ`; the theorems that need it only use its sign on the gated
  domain (points ≥ 10000), which is a true property of `log10`.
* Formatted justification strings (`reasons`) are modelled as structured
  `Reason` values carrying the same payloads, since no claim inspects the
  exact text formatting.
* Python's stable `sort`/`sorted` with a descending numeric key is
  modelled by `stableSortBy` (insertion sort, stable, same output).
* `time.sleep` backoff delays, thread pools and the network are not part
  of the value-level semantics: adapter results enter as parameters of
  type `Except String α` (success or the exception's message).
-/

namespace LolScout

/-! ## Python `round(x, d)` on exact rationals (round half to even) -/

def roundHalfEven (x : ℚ) : ℤ :=
  let f : ℤ := ⌊x⌋
  let frac : ℚ := x - (f : ℚ)
  if frac < 1/2 then f
  else if 1/2 < frac then f + 1
  else if f % 2 = 0 then f else f + 1

def pyRound (q : ℚ) (d : Nat) : ℚ :=
  (roundHalfEven (q * (10 : ℚ) ^ d) : ℚ) / (10 : ℚ) ^ d

/-! ## Stable sort (model of Python's stable `sorted` with a strict
"comes strictly before" test `gt`) -/

def insertAfterTies {α : Type} (gt : α → α → Bool) (x : α) : List α → List α
  | [] => [x]
  | y :: ys => if gt x y then x :: y :: ys else y :: insertAfterTies gt x ys

def stableSortBy {α : Type} (gt : α → α → Bool) (l : List α) : List α :=
  l.foldl (fun acc x => insertAfterTies gt x acc) []

/-! ## Data model (src/analysis.py input dictionaries)

`Champ` mirrors the champion dicts produced by `scrape_champions`,
`Mastery` the mastery dicts of `scrape_masteries`. -/

structure Champ where
  champion_id : Option Int := none
  champion_name : String
  champion_key : Option String := none
  games : Nat := 0
  wins : Nat := 0
  losses : Nat := 0
  winrate : ℚ := 0
  kda : ℚ := 0
  avg_kills : ℚ := 0
  avg_deaths : ℚ := 0
  avg_assists : ℚ := 0
  role : String := ""
  deriving DecidableEq

structure Mastery where
  champion_id : Option Int := none
  champion_name : String
  champion_key : Option String := none
  level : Nat := 0
  points : Nat := 0
  deriving DecidableEq

structure Stats where
  tier : Option String := none
  season_games : Option Nat := none
  champions : List Champ := []
  masteries : List Mastery := []
  deriving DecidableEq

structure Player where
  game_name : String
  role : Option String := none
  stats : Option Stats := none
  deriving DecidableEq

structure Team where
  players : List Player := []
  deriving DecidableEq

/-! ## src/analysis.py: tier weights, role aliases, role matching -/

def TIER_WEIGHTS : List (String × ℚ) :=
  [("CHALLENGER", 2), ("GRANDMASTER", 9/5), ("MASTER", 8/5), ("DIAMOND", 13/10),
   ("EMERALD", 11/10), ("PLATINUM", 1), ("GOLD", 9/10), ("SILVER", 4/5),
   ("BRONZE", 7/10), ("IRON", 3/5), ("UNRANKED", 4/5)]

/-- Model of `TIER_WEIGHTS.get(tier, 1.0)`. -/
def tierWeight (tier : String) : ℚ :=
  (TIER_WEIGHTS.lookup tier).getD 1

/-- Model of `ROLE_ALIASES.get(player_role, ...)` with the singleton-set default. -/
def ROLE_ALIASES (role : String) : List String :=
  if role = "top" then ["top", "Top"]
  else if role = "jungle" then ["jgl", "Jgl", "jungle", "Jungle"]
  else if role = "mid" then ["mid", "Mid", "middle", "Middle"]
  else if role = "bot" then ["bot", "Bot", "adc", "ADC", "bottom", "Bottom"]
  else if role = "support" then ["sup", "Sup", "support", "Support"]
  else [role]

/-- Embedding of `champ_matches_role` (analysis.py lines 31-39). Empty strings model the
falsy missing-role cases. -/
def champ_matches_role (champRoleStr : String) (playerRole : String) : Bool :=
  if champRoleStr = "" || playerRole = "" || playerRole = "fill" then true
  else (champRoleStr.splitOn "/").any
    (fun part => (ROLE_ALIASES playerRole).contains part.trim)

/-! ## OTP / Main detection -/

/-- Model of `sorted(champs, key=lambda c: -c.get("games", 0))` (stable, descending). -/
def sortByGamesDesc (cs : List Champ) : List Champ :=
  stableSortBy (fun a b => decide (b.games < a.games)) cs

/-- Model of `otp_ratio = max(5.0 - (top_games - 10) * 0.05, 3.0)`. -/
def otpRatio (topGames : Nat) : ℚ :=
  max (5 - ((topGames : ℚ) - 10) * (5/100)) 3

/-- Model of `main_ratio = max(2.0 - (top_games - 10) * 0.0125, 1.5)`. -/
def mainRatio (topGames : Nat) : ℚ :=
  max (2 - ((topGames : ℚ) - 10) * (125/10000)) (3/2)

/-- OTP/Main detection of `get_ban_recommendations` (analysis.py lines 77-91):
returns `(otp_name, main_name)`. Sorts internally like the code does. -/
def banDetect (champs : List Champ) : Option String × Option String :=
  match sortByGamesDesc champs with
  | c0 :: c1 :: _ =>
    let top := c0.games
    let second := c1.games
    if top ≥ 20 ∧ 0 < second ∧ otpRatio top ≤ (top : ℚ) / (second : ℚ) then
      (some c0.champion_name, none)
    else if top ≥ 10 ∧ 0 < second ∧ mainRatio top ≤ (top : ℚ) / (second : ℚ) then
      (none, some c0.champion_name)
    else (none, none)
  | [c0] =>
    if c0.games ≥ 20 then (some c0.champion_name, none) else (none, none)
  | [] => (none, none)

inductive PoolTag where
  | otp
  | main
  deriving DecidableEq

/-- The tag cascade of `identify_one_tricks` (analysis.py lines 322-331). -/
def identifyTagCore (top second : Nat) : Option PoolTag :=
  if top ≥ 20 ∧ 0 < second ∧ otpRatio top ≤ (top : ℚ) / (second : ℚ) then
    some .otp
  else if top ≥ 20 ∧ second = 0 then some .otp
  else if top ≥ 10 ∧ 0 < second ∧ mainRatio top ≤ (top : ℚ) / (second : ℚ) then
    some .main
  else none

/-- Classification of `identify_one_tricks` on a champion list (sorted
internally; `second_games` defaults to 0 when there is no second champion). -/
def identifyTag (champs : List Champ) : Option PoolTag :=
  match sortByGamesDesc champs with
  | [] => none
  | [c0] => identifyTagCore c0.games 0
  | c0 :: c1 :: _ => identifyTagCore c0.games c1.games

/-- The ban scorer's detection collapsed to the same tag type, for
comparison with `identifyTag`. -/
def banTag (champs : List Champ) : Option PoolTag :=
  match banDetect champs with
  | (some _, _) => some .otp
  | (none, some _) => some .main
  | (none, none) => none

/-! ## Ban recommendation scoring -/

/-- Structured stand-ins for the formatted `reasons` strings. -/
inductive Reason where
  | played (player tier : String) (games : Nat)
  | masteryLvl (level points : Nat)
  | otp
  | main
  | countersPick (oppName : String) (ourWr : ℚ)
  | weakInto (oppName : String) (ourWr : ℚ)
  | masteryPts (points : Nat)
  | rankedGames (games : Nat)
  | likelyBanned
  deriving DecidableEq

/-- Last-write-wins lookup, modelling the Python dict built by
`for m in masteries: mastery_map[m["champion_name"]] = {...}`. -/
def masteryLookup (ms : List Mastery) (name : String) : Option Mastery :=
  ms.reverse.find? (fun m => m.champion_name = name)

/-- The mastery-bonus gate of analysis.py line 116: the champion has a
mastery entry with at least 10000 points whose role tag fits the player's
tournament role. -/
def masteryBonusApplies (masteries : List Mastery) (c : Champ)
    (player_role : String) : Bool :=
  match masteryLookup masteries c.champion_name with
  | some m => decide (m.points ≥ 10000) && champ_matches_role c.role player_role
  | none => false

/-- The mastery points entering the bonus (only read when the gate holds). -/
def masteryBonusPoints (masteries : List Mastery) (c : Champ) : Nat :=
  match masteryLookup masteries c.champion_name with
  | some m => m.points
  | none => 0

/-- The score one champion at slot `i` adds for one player
(analysis.py lines 104-127): ranked-games base, slot boosts for the two
most-played slots, gated mastery bonus, OTP/Main multiplier. -/
def champScore (lg : Nat → ℚ) (tier_weight : ℚ) (player_role : String)
    (masteries : List Mastery) (otpName mainName : Option String)
    (i : Nat) (c : Champ) : ℚ :=
  let base : ℚ := (c.games : ℚ) * tier_weight
  let base := if i = 0 then base * (3/2) else if i = 1 then base * (6/5) else base
  let withMastery :=
    if masteryBonusApplies masteries c player_role then
      base + lg (max (masteryBonusPoints masteries c) 1) * 5 * tier_weight
    else base
  if otpName = some c.champion_name then withMastery * (23/20)
  else if mainName = some c.champion_name then withMastery * (11/10)
  else withMastery

/-- The tier-weight-independent factor of `champScore`: every term of the
per-champion score (ranked base, slot boost, mastery bonus, OTP/Main
multiplier) scales linearly with the tier weight, and this is the
remaining factor. -/
def champFactor (lg : Nat → ℚ) (player_role : String)
    (masteries : List Mastery) (otpName mainName : Option String)
    (i : Nat) (c : Champ) : ℚ :=
  let slot : ℚ := if i = 0 then 3/2 else if i = 1 then 6/5 else 1
  let base : ℚ := (c.games : ℚ) * slot
  let wm :=
    if masteryBonusApplies masteries c player_role then
      base + lg (max (masteryBonusPoints masteries c) 1) * 5
    else base
  (if otpName = some c.champion_name then (23/20 : ℚ)
   else if mainName = some c.champion_name then 11/10
   else 1) * wm

/-- The per-champion accumulator entry of the `champ_scores` defaultdict. -/
structure ScoreEntry where
  score : ℚ := 0
  reasons : List Reason := []
  players : List String := []
  champion_key : String := ""
  champion_id : Option Int := none
  deriving DecidableEq

/-- Insertion-ordered update of the `champ_scores` defaultdict: updates in
place when the key exists, appends a fresh default entry otherwise. -/
def updateAssoc (l : List (String × ScoreEntry)) (k : String)
    (f : ScoreEntry → ScoreEntry) : List (String × ScoreEntry) :=
  match l with
  | [] => [(k, f {})]
  | (k', v) :: rest =>
    if k' = k then (k', f v) :: rest else (k', v) :: updateAssoc rest k f

/-- Loop body of `for i, champ in enumerate(stats.get("champions", [])[:10])`
(analysis.py lines 94-131). -/
def processChamp (lg : Nat → ℚ) (tier_weight : ℚ) (pname tier player_role : String)
    (masteries : List Mastery) (otpName mainName : Option String)
    (acc : List (String × ScoreEntry)) (ic : Nat × Champ) :
    List (String × ScoreEntry) :=
  let i := ic.1
  let c := ic.2
  if c.games < 3 then acc
  else
    let score := champScore lg tier_weight player_role masteries otpName mainName i c
    let reasons : List Reason := [.played pname tier c.games]
    let reasons :=
      match masteryLookup masteries c.champion_name with
      | some m =>
        if m.points ≥ 10000 ∧ champ_matches_role c.role player_role then
          reasons ++ [.masteryLvl m.level m.points]
        else reasons
      | none => reasons
    let reasons :=
      if otpName = some c.champion_name then reasons ++ [.otp]
      else if mainName = some c.champion_name then reasons ++ [.main]
      else reasons
    updateAssoc acc c.champion_name (fun e =>
      { e with
        champion_key := c.champion_key.getD c.champion_name
        champion_id := c.champion_id
        score := e.score + score
        reasons := e.reasons ++ reasons
        players := e.players ++ [pname] })

/-- Per-player part of the ban scoring loop (analysis.py lines 58-131).
A player with a null stats snapshot contributes nothing. -/
def processPlayer (lg : Nat → ℚ) (acc : List (String × ScoreEntry))
    (p : Player) : List (String × ScoreEntry) :=
  match p.stats with
  | none => acc
  | some stats =>
    let tier := stats.tier.getD "UNRANKED"
    let tier_weight := tierWeight tier
    let player_role := p.role.getD "fill"
    let det := banDetect stats.champions
    (stats.champions.take 10).enum.foldl
      (processChamp lg tier_weight p.game_name tier player_role
        stats.masteries det.1 det.2) acc

structure BanRec where
  champion_name : String
  champion_key : String
  champion_id : Option Int
  score : ℚ
  reasons : List Reason
  players : List String
  deriving DecidableEq

/-- Embedding of `get_ban_recommendations` (analysis.py lines 42-145). `list(set(...))`
has unspecified order in Python; it is modelled as first-occurrence
deduplication. -/
def get_ban_recommendations (lg : Nat → ℚ) (opponent_team : Team)
    (num_bans : Nat) : List BanRec :=
  let champ_scores := opponent_team.players.foldl (processPlayer lg) []
  let results : List BanRec := champ_scores.map (fun kv =>
    { champion_name := kv.1
      champion_key := kv.2.champion_key
      champion_id := kv.2.champion_id
      score := pyRound kv.2.score 1
      reasons := kv.2.reasons
      players := kv.2.players.eraseDups })
  (stableSortBy (fun a b => decide (b.score < a.score)) results).take (num_bans * 2)

/-! ## identify_one_tricks -/

structure OneTrick where
  player : String
  role : String
  champion : String
  champion_key : String
  games : Nat
  pct : ℚ
  winrate : ℚ
  tag : PoolTag
  deriving DecidableEq

/-- Per-player loop body of `identify_one_tricks` (analysis.py lines
308-342). The `stats.get("season_games") or sum(...)` fallback triggers
both when the field is absent and when it is zero. -/
def identifyStep (acc : List OneTrick) (p : Player) : List OneTrick :=
  match p.stats with
  | none => acc
  | some stats =>
    if stats.champions = [] then acc
    else
      match sortByGamesDesc stats.champions with
      | [] => acc
      | c0 :: rest =>
        let top_games := c0.games
        let second_games := match rest with | c1 :: _ => c1.games | [] => 0
        let total : Nat :=
          match stats.season_games with
          | some n => if n = 0 then (stats.champions.map (·.games)).sum else n
          | none => (stats.champions.map (·.games)).sum
        match identifyTagCore top_games second_games with
        | none => acc
        | some tag =>
          acc ++ [{ player := p.game_name
                    role := p.role.getD "?"
                    champion := c0.champion_name
                    champion_key := c0.champion_key.getD ""
                    games := top_games
                    pct := pyRound ((top_games : ℚ) / (max total 1 : Nat) * 100) 1
                    winrate := c0.winrate
                    tag := tag }]

/-- Embedding of `identify_one_tricks` (analysis.py lines 301-343). -/
def identify_one_tricks (team : Team) : List OneTrick :=
  team.players.foldl identifyStep []

/-! ## Pick recommendations -/

structure MainInfo where
  name : String
  key : String
  tier : String
  player : String
  deriving DecidableEq

/-- Insertion-ordered dict assignment: overwrite in place, append if new. -/
def setAssoc {β : Type} (l : List (String × β)) (k : String) (v : β) :
    List (String × β) :=
  match l with
  | [] => [(k, v)]
  | (k', v') :: rest =>
    if k' = k then (k', v) :: rest else (k', v') :: setAssoc rest k v

/-- Construction of `opp_mains` (analysis.py lines 164-180): per non-fill role,
the most-played champion of the opposing player in that role. -/
def buildOppMains (opponent_team : Team) : List (String × MainInfo) :=
  opponent_team.players.foldl (fun acc p =>
    let role := p.role.getD "fill"
    if role = "fill" then acc
    else
      match p.stats with
      | none => acc
      | some s =>
        if s.champions = [] then acc
        else
          match sortByGamesDesc s.champions with
          | [] => acc
          | main :: _ =>
            setAssoc acc role
              { name := main.champion_name
                key := main.champion_key.getD ""
                tier := s.tier.getD "UNRANKED"
                player := p.game_name }) []

/-- Model of `support_champ_names` (analysis.py lines 189-198); only its
non-emptiness is ever used, so duplicates are fine. -/
def supportChampNames (my_team : Team) : List String :=
  my_team.players.foldl (fun acc p =>
    if p.role = some "support" then
      match p.stats with
      | none => acc
      | some s =>
        acc ++ (s.champions.take 5).map (·.champion_name)
            ++ (s.masteries.take 10).map (·.champion_name)
    else acc) []

structure Candidate where
  champion_key : String
  champion_id : Option Int
  games : Nat
  mastery : Nat
  deriving DecidableEq

/-- Candidate pool per player (analysis.py lines 222-235): ranked champions
with at least 2 games whose role tag is compatible with the player's role. -/
def buildCandidates (s : Stats) (role : String) : List (String × Candidate) :=
  s.champions.foldl (fun acc c =>
    if c.games < 2 then acc
    else if c.role ≠ "" ∧ ¬ champ_matches_role c.role role then acc
    else
      setAssoc acc c.champion_name
        { champion_key := c.champion_key.getD ""
          champion_id := c.champion_id
          games := c.games
          mastery := ((masteryLookup s.masteries c.champion_name).map
            (·.points)).getD 0 }) []

/-- The per-candidate score of `get_pick_recommendations` (analysis.py
lines 239-280): counter-matchup term, comfort term scaled inversely with
opponent tier, ranked-volume bonus, likely-ban penalty. `counterWr` is the
opposing main's win rate against this candidate (none when the counter page
has no entry, which contributes zero). -/
def pickScore (lg : Nat → ℚ) (opp_tier_weight : ℚ) (counterWr : Option ℚ)
    (masteryPts : Nat) (games : Nat) (banned : Bool) : ℚ :=
  let score : ℚ := 0
  let score :=
    match counterWr with
    | some wr =>
      let adv := (100 - wr) - 50
      if 2 < adv then score + adv * 3
      else if adv < -2 then score + adv * 2
      else score
    | none => score
  let score :=
    if masteryPts ≥ 10000 then
      score + lg masteryPts * 5 * max ((3/2) - opp_tier_weight * (1/2)) (1/2)
    else score
  let score := score + min ((games : ℚ) * (1/2)) 10
  if banned then score * (1/5) else score

structure Pick where
  champion_name : String
  champion_key : String
  champion_id : Option Int
  games : Nat
  mastery : Nat
  score : ℚ
  likely_banned : Bool
  player : String
  reasons : List Reason
  counters : String
  deriving DecidableEq

/-- One pick record (analysis.py lines 238-293). -/
def mkPick (lg : Nat → ℚ) (likely_bans : List String)
    (oppMain : Option MainInfo) (counter_data : List (String × ℚ))
    (opp_w : ℚ) (pname role : String) (support_names : List String)
    (nc : String × Candidate) : Pick :=
  let name := nc.1
  let info := nc.2
  let banned := likely_bans.contains name
  let counterWr := counter_data.lookup name
  let score := pickScore lg opp_w counterWr info.mastery info.games banned
  let oppName := (oppMain.map (·.name)).getD ""
  let r1 : List Reason :=
    match counterWr with
    | some wr =>
      let our := (100 : ℚ) - wr
      if 2 < our - 50 then [.countersPick oppName our]
      else if our - 50 < -2 then [.weakInto oppName our]
      else []
    | none => []
  let r2 : List Reason := if info.mastery ≥ 10000 then [.masteryPts info.mastery] else []
  let r3 : List Reason :=
    if role = "bot" ∧ support_names ≠ [] then [.rankedGames info.games] else []
  let r4 : List Reason := if banned then [.likelyBanned] else []
  { champion_name := name
    champion_key := info.champion_key
    champion_id := info.champion_id
    games := info.games
    mastery := info.mastery
    score := pyRound score 1
    likely_banned := banned
    player := pname
    reasons := r1 ++ r2 ++ r3 ++ r4
    counters :=
      match counterWr, oppMain with
      | some wr, some mi => if wr < 48 then mi.name else ""
      | _, _ => "" }

/-- Per-player loop body of `get_pick_recommendations` (analysis.py lines
202-296): role-filtered candidates, scored, sorted, truncated to 5, stored
under the player's role. -/
def pickStep (lg : Nat → ℚ) (likely_bans : List String)
    (opp_mains : List (String × MainInfo))
    (opp_counters : List (String × List (String × ℚ)))
    (support_names : List String)
    (acc : List (String × List Pick)) (p : Player) : List (String × List Pick) :=
  match p.stats with
  | none => acc
  | some s =>
    let role := p.role.getD "fill"
    if role = "fill" then acc
    else
      let oppMain := opp_mains.lookup role
      let opp_w := tierWeight ((oppMain.map (·.tier)).getD "UNRANKED")
      let counter_data := (opp_counters.lookup role).getD []
      let cands := buildCandidates s role
      let picks := cands.map
        (mkPick lg likely_bans oppMain counter_data opp_w p.game_name role
          support_names)
      let picks := stableSortBy (fun a b => decide (b.score < a.score)) picks
      setAssoc acc role (picks.take 5)

/-- Embedding of `get_pick_recommendations` (analysis.py lines 148-298).

Modelled from the spec: `scrape_counters` is imported from the repository's
scraper module but is absent from src/scraper.py; following spec sections
4.6 and 4.2 it is modelled as the abstract parameter
`counters : String → String → List (String × ℚ)` mapping the opposing
main's champion key and role to that main's win rates against each
candidate champion name. -/
def get_pick_recommendations (lg : Nat → ℚ)
    (counters : String → String → List (String × ℚ))
    (my_team opponent_team : Team) : List (String × List Pick) :=
  let ban_recs := get_ban_recommendations lg opponent_team 5
  let likely_bans := (ban_recs.take 5).map (·.champion_name)
  let opp_mains := buildOppMains opponent_team
  let opp_counters : List (String × List (String × ℚ)) :=
    opp_mains.map (fun rm => (rm.1, counters rm.2.key rm.1))
  let support_names := supportChampNames my_team
  my_team.players.foldl
    (pickStep lg likely_bans opp_mains opp_counters support_names) []

/-! ## src/scraper.py: the fetch layer (`_fetch`, lines 33-50)

A fetch attempt's outcome is an HTTP response (status plus body) or a
transport-level failure (`requests.RequestException` message). The network
is modelled as an oracle indexed by the number of requests already made.
Backoff sleeps have no value-level effect and are not modelled. -/

inductive Resp where
  | http (status : Nat) (body : String)
  | transport (msg : String)
  deriving DecidableEq

inductive FetchErr where
  | blocked
  | failedAfterRetries (lastErr : Option String)
  deriving DecidableEq

def MAX_RETRIES : Nat := 3

/-- The retry loop of `_fetch`: 429 consumes an attempt and retries (without
touching `last_error`); 403 raises the distinct blocked error at once
(`ScrapeError` is not a `requests.RequestException`, so the handler does not
catch it); other non-2xx statuses and transport errors consume an attempt
and record `last_error`. Returns the outcome and the number of requests
performed. -/
def fetchLoop (oracle : Nat → Resp) :
    Nat → Nat → Option String → Except FetchErr String × Nat
  | 0, made, lastErr => (.error (.failedAfterRetries lastErr), made)
  | remaining + 1, made, lastErr =>
    match oracle made with
    | .http s body =>
      if s = 429 then fetchLoop oracle remaining (made + 1) lastErr
      else if s = 403 then (.error .blocked, made + 1)
      else if 400 ≤ s then
        fetchLoop oracle remaining (made + 1) (some ("HTTP " ++ toString s))
      else (.ok body, made + 1)
    | .transport msg => fetchLoop oracle remaining (made + 1) (some msg)

def fetch (oracle : Nat → Resp) : Except FetchErr String × Nat :=
  fetchLoop oracle MAX_RETRIES 0 none

/-- A response that consumes a retry slot per the spec: rate-limited or a
transport-level error. -/
def retryableResp : Resp → Bool
  | .http s _ => s = 429
  | .transport _ => true

/-! ## src/scraper.py: payload extraction for the masteries array
(`scrape_masteries`, lines 263-308)

The scan locates the masteries anchor, then counts raw square brackets
without string-literal awareness (the in-code comment claims brackets can
never occur inside string literals of the double-escaped payload), and
unescapes the located span with `.replace('\\"', '"')`. The 500000-char
scan cap is not modelled (all inputs considered are far smaller). -/

def strFindAux (needle : List Char) : List Char → Nat → Option Nat
  | [], i => if needle = [] then some i else none
  | c :: rest, i =>
    if needle.isPrefixOf (c :: rest) then some i
    else strFindAux needle rest (i + 1)

/-- Model of `text.find(needle)`: index of the first occurrence, `none` for -1. -/
def strFind (needle hay : List Char) : Option Nat :=
  strFindAux needle hay 0

/-- Raw bracket-depth scan of `scrape_masteries` (lines 277-283): returns
the relative index of the `]` that brings the depth back to zero. -/
def scanDepth : List Char → Nat → Int → Option Nat
  | [], _, _ => none
  | c :: rest, i, depth =>
    if c = '[' then scanDepth rest (i + 1) (depth + 1)
    else if c = ']' then
      if depth - 1 = 0 then some i else scanDepth rest (i + 1) (depth - 1)
    else scanDepth rest (i + 1) depth

/-- Model of `.replace('\\"', '"')`: undo one level of quote escaping. -/
def unescapeQuotes : List Char → List Char
  | [] => []
  | '\\' :: '"' :: rest => '"' :: unescapeQuotes rest
  | c :: rest => c :: unescapeQuotes rest

/-- One level of backslash escaping of the double quotes, as the outer page
serialization applies to an embedded JSON payload. -/
def escapeQuotes : List Char → List Char
  | [] => []
  | '"' :: rest => '\\' :: '"' :: escapeQuotes rest
  | c :: rest => c :: escapeQuotes rest

def MASTERIES_ANCHOR1 : List Char := "\"masteries\":[\x7b".toList

def MASTERIES_ANCHOR2 : List Char := "masteries\\\":[\x7b".toList

/-- The located, unescaped masteries array span that `scrape_masteries`
hands to `json.loads` (lines 270-284); `none` models every "no data"
path (anchor absent, no bracket, scan never returns to depth zero). -/
def extractMasteriesSpan (html : List Char) : Option (List Char) :=
  let idx? :=
    match strFind MASTERIES_ANCHOR1 html with
    | some i => some i
    | none => strFind MASTERIES_ANCHOR2 html
  match idx? with
  | none => none
  | some idx =>
    let afterIdx := html.drop idx
    match strFind ['['] afterIdx with
    | none => none
    | some j =>
      let fromArr := afterIdx.drop j
      match scanDepth fromArr 0 0 with
      | none => none
      | some endRel => some (unescapeQuotes (fromArr.take (endRel + 1)))

/-! ## src/scraper.py: per-record normalization of `scrape_champions`
(lines 447-505) -/

/-- The `kda` field of a raw champion entry: either the stats object (with
absent sub-fields already collapsed to 0, as `.get(..., 0)` does — an absent
`kda` key defaults to `{}`, i.e. all zeros) or a bare number. -/
inductive KdaField where
  | obj (kda avg_kill avg_death avg_assist : ℚ)
  | num (x : ℚ)
  deriving DecidableEq

/-- A raw champion entry of the decoded `my_champion_stats` array. -/
structure RawChamp where
  champion_id : Option Int := none
  id : Option Int := none
  play : Option Nat := none
  win : Option Nat := none
  lose : Option Nat := none
  win_rate : Option ℚ := none
  kda : KdaField := .obj 0 0 0 0
  name : Option String := none
  image_url : Option String := none
  key : Option String := none
  deriving DecidableEq

/-- Model of `ROLE_SHORT.get(r, r)`. -/
def roleShort (r : String) : String :=
  if r = "TOP" then "Top"
  else if r = "JUNGLE" then "Jgl"
  else if r = "MIDDLE" then "Mid"
  else if r = "BOTTOM" then "Bot"
  else if r = "SUPPORT" then "Sup"
  else r

/-- Model of `champion_id = c.get("champion_id") or c.get("id", 0)` — the `or`
falls through on `None` and on 0. -/
def rawChampId (c : RawChamp) : Int :=
  match c.champion_id with
  | some v => if v = 0 then c.id.getD 0 else v
  | none => c.id.getD 0

/-- The `winrate` variable of `scrape_champions` (lines 459-461): the
reported rate, recomputed from wins/games when it is zero/missing and
games are positive. -/
def backfillWinrate (win_rate : Option ℚ) (wins games : Nat) : ℚ :=
  if win_rate.getD 0 = 0 ∧ 0 < games then
    pyRound ((wins : ℚ) / (games : ℚ) * 100) 1
  else win_rate.getD 0

/-- The record built by `scrape_champions` for a non-skipped raw entry
(lines 456-505). -/
def buildChamp (role_map : List (Int × String))
    (static_roles : String → List String) (c : RawChamp) (games : Nat) :
    Champ :=
  let cid := rawChampId c
  let wins := c.win.getD 0
  let losses := c.lose.getD 0
  let kda := match c.kda with | .obj k _ _ _ => k | .num x => x
  let avgk := match c.kda with | .obj _ a _ _ => a | .num _ => 0
  let avgd := match c.kda with | .obj _ _ d _ => d | .num _ => 0
  let avga := match c.kda with | .obj _ _ _ a => a | .num _ => 0
  let champ_name := c.name.getD ""
  let image_url := c.image_url.getD ""
  let key0 := c.key.getD ""
  let champ_key :=
    if key0 = "" ∧ image_url ≠ "" then
      ((image_url.splitOn "/").getLastD "").replace ".png" ""
    else key0
  let display_name :=
    if champ_name ≠ "" then champ_name
    else if champ_key ≠ "" then champ_key
    else "Champion " ++ toString cid
  let role_str :=
    match role_map.lookup cid with
    | some r => r
    | none =>
      let fromName := static_roles display_name
      let positions := if fromName ≠ [] then fromName else static_roles champ_key
      if positions = [] then ""
      else String.intercalate "/" (positions.map roleShort)
  { champion_id := some cid
    champion_name := display_name
    champion_key := some (if champ_key ≠ "" then champ_key else champ_name)
    games := games
    wins := wins
    losses := losses
    winrate := pyRound (backfillWinrate c.win_rate wins games) 1
    kda := pyRound kda 2
    avg_kills := pyRound avgk 1
    avg_deaths := pyRound avgd 1
    avg_assists := pyRound avga 1
    role := role_str }

/-- Per-record normalization loop body of `scrape_champions` (lines
447-505). `role_map` is the u.gg champion-role map (empty models both
`None` and `{}`, which are equally falsy); `static_roles` models the Meraki
fallback table, with `[]` for an absent champion. Returns `none` for the
skipped records (no `"play"` key, or the aggregate all-champions entry). -/
def normalizeChamp (role_map : List (Int × String))
    (static_roles : String → List String) (c : RawChamp) : Option Champ :=
  match c.play with
  | none => none
  | some games =>
    if rawChampId c = 0 then none
    else some (buildChamp role_map static_roles c games)

/-! ## src/scraper.py: the reconciler (`scrape_player`, lines 540-633)

Each sub-fetch's outcome enters as `Except String α` (success, or the
caught exception's message). The thread pool only affects timing, not the
merged value; `trigger_opgg_renewal` only has network side effects. The
champions sub-fetch already receives the role map inside the code, so its
parameter here is the final adapter result. -/

structure SeasonEntry where
  season : String
  peak_rank : String
  end_rank : String
  deriving DecidableEq

structure TierData where
  tier : String := "UNRANKED"
  division : Option Int := none
  lp : Int := 0
  resolved_name : Option String := none
  resolved_tag : Option String := none
  internal_name : Option String := none
  puuid : Option String := none
  deriving DecidableEq

structure HistoryData where
  previous_season_tier : Option String := none
  peak_tier : Option String := none
  season_history : List SeasonEntry := []
  deriving DecidableEq

structure ChampData where
  season_games : Nat := 0
  season_wins : Nat := 0
  season_losses : Nat := 0
  season_winrate : ℚ := 0
  champions : List Champ := []
  deriving DecidableEq

structure PlayerSnapshot where
  last_updated : String
  tier : String := "UNRANKED"
  division : Option Int := none
  lp : Int := 0
  previous_season_tier : Option String := none
  peak_tier : Option String := none
  season_history : List SeasonEntry := []
  season_games : Nat := 0
  season_wins : Nat := 0
  season_losses : Nat := 0
  season_winrate : ℚ := 0
  champions : List Champ := []
  masteries : List Mastery := []
  opgg_url : Option String := none
  scrape_error : Option String := none
  deriving DecidableEq

/-- Model of `if tier_data.get("resolved_name"): resolved_name = ...` — the update
happens only for a truthy (present and non-empty) value. -/
def orKeep (o : Option String) (d : String) : String :=
  match o with
  | some s => if s = "" then d else s
  | none => d

def exceptFailed {α : Type} : Except String α → Bool
  | .ok _ => false
  | .error _ => true

/-- The error accumulation of `scrape_player`: the tier, season-history,
champions and masteries sub-fetches append a message each on failure, in
code order. The role-inference sub-fetch is absent by design: its failure
is swallowed (`except Exception: pass`, line 599-600). -/
def scrapePlayerErrors (tierRes : Except String TierData)
    (historyRes : Except String HistoryData)
    (champsRes : Except String ChampData)
    (masteryRes : Except String (List Mastery)) : List String :=
  (match tierRes with | .ok _ => [] | .error e => ["Tier fetch failed: " ++ e])
  ++ (match historyRes with | .ok _ => [] | .error e => ["Season history failed: " ++ e])
  ++ (match champsRes with | .ok _ => [] | .error e => ["Champions fetch failed: " ++ e])
  ++ (match masteryRes with | .ok _ => [] | .error e => ["Masteries failed: " ++ e])

/-- Embedding of `scrape_player` (lines 540-633): merges whatever sub-fetches succeeded
into one snapshot and joins the accumulated failures into the single
`scrape_error` diagnostic. Total — it never fails. URL percent-encoding of
the slug is presentation-only and not modelled. -/
def scrape_player (now game_name tag_line : String)
    (tierRes : Except String TierData)
    (rolesRes : Except String (List (Int × String)))
    (historyRes : Except String HistoryData)
    (champsRes : Except String ChampData)
    (masteryRes : Except String (List Mastery)) : PlayerSnapshot :=
  let resolved_name :=
    match tierRes with
    | .ok td => orKeep td.resolved_name game_name
    | .error _ => game_name
  let resolved_tag :=
    match tierRes with
    | .ok td => orKeep td.resolved_tag tag_line
    | .error _ => tag_line
  let slug := resolved_name ++ "-" ++ resolved_tag
  let _roleMap : List (Int × String) :=
    match rolesRes with
    | .ok m => m
    | .error _ => []
  let errs := scrapePlayerErrors tierRes historyRes champsRes masteryRes
  { last_updated := now
    tier := match tierRes with | .ok td => td.tier | .error _ => "UNRANKED"
    division := match tierRes with | .ok td => td.division | .error _ => none
    lp := match tierRes with | .ok td => td.lp | .error _ => 0
    previous_season_tier :=
      match historyRes with | .ok h => h.previous_season_tier | .error _ => none
    peak_tier := match historyRes with | .ok h => h.peak_tier | .error _ => none
    season_history :=
      match historyRes with | .ok h => h.season_history | .error _ => []
    season_games := match champsRes with | .ok cd => cd.season_games | .error _ => 0
    season_wins := match champsRes with | .ok cd => cd.season_wins | .error _ => 0
    season_losses := match champsRes with | .ok cd => cd.season_losses | .error _ => 0
    season_winrate := match champsRes with | .ok cd => cd.season_winrate | .error _ => 0
    champions := match champsRes with | .ok cd => cd.champions | .error _ => []
    masteries := match masteryRes with | .ok ms => ms | .error _ => []
    opgg_url := some ("https://op.gg/lol/summoners/na/" ++ slug)
    scrape_error :=
      if errs = [] then none else some (String.intercalate "; " errs) }

/-- Number of failure entries a diagnostic string carries (entries are
joined by "; "). -/
def errorEntryCount : Option String → Nat
  | none => 0
  | some s => (s.splitOn "; ").length

/-! ## Concrete example inputs used by witnesses and counterexamples -/

/-- Oracle whose first response is HTTP 403. -/
def oracle403 : Nat → Resp := fun _ => .http 403 "blocked page"

/-- Oracle that always fails at transport level. -/
def oracleDown : Nat → Resp := fun _ => .transport "timeout"

def champA25 : Champ := { champion_name := "A", games := 25 }

def champB0 : Champ := { champion_name := "B", games := 0 }

def champB5 : Champ := { champion_name := "B", games := 5 }

def azir : Champ := { champion_name := "Azir", games := 25, winrate := 60 }

def xerath : Champ := { champion_name := "Xerath", games := 1 }

def taliyah : Champ := { champion_name := "Taliyah", games := 25, winrate := 60 }

def yone : Champ := { champion_name := "Yone", games := 10 }

/-- CHALLENGER one-trick scenario player of spec section 8. -/
def challPlayer : Player :=
  { game_name := "P1", role := some "mid",
    stats := some { tier := some "CHALLENGER", champions := [azir, xerath] } }

/-- GOLD comparison player with an identical 25-game 60%-winrate stat line
that is not an OTP (second champion close enough behind). -/
def goldPlayer : Player :=
  { game_name := "P2", role := some "mid",
    stats := some { tier := some "GOLD", champions := [taliyah, yone] } }

def scenarioTeam : Team := { players := [challPlayer, goldPlayer] }

/-- A team whose scored champion pool is smaller than `2 * num_bans`. -/
def smallTeam : Team :=
  { players := [{ game_name := "Q", role := some "mid",
                  stats := some { tier := some "GOLD", champions := [champB5] } }] }

/-- A team whose players all have a null (never refreshed) stats snapshot. -/
def nullStatsTeam : Team :=
  { players := [{ game_name := "N1" }, { game_name := "N2", role := some "top" }] }

/-- The rounded score assigned to a champion in a recommendation list. -/
def scoreOf (res : List BanRec) (name : String) : Option ℚ :=
  ((res.find? (fun r => r.champion_name = name)).map (·.score))

/-- A syntactically valid JSON masteries array whose single string value
contains a decoy `]` bracket. -/
def decoyArray : List Char := "[\x7b\"champion_name\":\"a]b\"\x7d]".toList

/-- The decoy array embedded with one level of backslash escaping inside
surrounding page text (quotes escaped, brackets untouched — exactly what
JSON string escaping does). -/
def decoyPage : List Char :=
  "xx\\\"masteries\\\":".toList ++ escapeQuotes decoyArray ++ " tail".toList

/-- A raw champion entry with positive games and no reported win rate. -/
def rawEkko : RawChamp :=
  { champion_id := some 245, play := some 25, win := some 15, lose := some 10,
    name := some "Ekko" }

/-- Witness champion for the tier-monotonicity claim. -/
def witnessChamp : Champ := { champion_name := "W", games := 12, winrate := 55 }

/-- The normalized record `scrape_champions` builds from `rawEkko`. -/
def ekkoRec : Champ :=
  { champion_id := some 245, champion_name := "Ekko", champion_key := some "Ekko",
    games := 25, wins := 15, losses := 10, winrate := 60, kda := 0,
    avg_kills := 0, avg_deaths := 0, avg_assists := 0, role := "" }

/-- A one-player own team with a single 2-game candidate champion. -/
def miniMyTeam : Team :=
  { players := [{ game_name := "M", role := some "mid",
                  stats := some { champions := [{ champion_name := "C", games := 2 }] } }] }

def emptyTeam : Team := { players := [] }

/-- The pick record produced for `miniMyTeam` against an empty opponent
team: no counter data, no mastery, a pure ranked-volume score. -/
def miniPick : Pick :=
  { champion_name := "C", champion_key := "", champion_id := none, games := 2,
    mastery := 0, score := 1, likely_banned := false, player := "M",
    reasons := [], counters := "" }

/-- The Azir entry of the ban list computed from `scenarioTeam`. -/
def azirBanRec : BanRec :=
  { champion_name := "Azir", champion_key := "Azir", champion_id := none,
    score := 431/5, reasons := [.played "P1" "CHALLENGER" 25, .otp],
    players := ["P1"] }

end LolScout

namespace LolScout

/-! # Helper lemmas -/

theorem mem_insertAfterTies {α : Type} (gt : α → α → Bool) (x a : α)
    (l : List α) : a ∈ insertAfterTies gt x l ↔ a = x ∨ a ∈ l := by
  induction l with
  | nil => simp [insertAfterTies]
  | cons y ys ih =>
    simp only [insertAfterTies]
    split
    · simp [List.mem_cons]
    · simp only [List.mem_cons, ih]
      tauto

theorem pairwise_insertAfterTies {α : Type} (key : α → ℚ) (x : α) (l : List α)
    (h : l.Pairwise (fun a b => key b ≤ key a)) :
    (insertAfterTies (fun a b => decide (key b < key a)) x l).Pairwise
      (fun a b => key b ≤ key a) := by
  induction l with
  | nil => simp [insertAfterTies]
  | cons y ys ih =>
    rcases List.pairwise_cons.mp h with ⟨hy, hys⟩
    simp only [insertAfterTies]
    by_cases hlt : key y < key x
    · rw [if_pos (by simpa using hlt)]
      refine List.pairwise_cons.mpr ⟨?_, h⟩
      intro b hb
      rcases List.mem_cons.mp hb with rfl | hb
      · exact le_of_lt hlt
      · exact le_trans (hy b hb) (le_of_lt hlt)
    · rw [if_neg (by simpa using hlt)]
      refine List.pairwise_cons.mpr ⟨?_, ih hys⟩
      intro b hb
      rcases (mem_insertAfterTies _ x b ys).mp hb with rfl | hb
      · exact le_of_not_lt hlt
      · exact hy b hb

theorem pairwise_stableSortBy {α : Type} (key : α → ℚ) (l : List α) :
    (stableSortBy (fun a b => decide (key b < key a)) l).Pairwise
      (fun a b => key b ≤ key a) := by
  unfold stableSortBy
  suffices h : ∀ (m acc : List α), acc.Pairwise (fun a b => key b ≤ key a) →
      (m.foldl (fun acc x =>
        insertAfterTies (fun a b => decide (key b < key a)) x acc) acc).Pairwise
        (fun a b => key b ≤ key a) by
    exact h l [] (by simp)
  intro m
  induction m with
  | nil => intro acc hacc; exact hacc
  | cons x xs ih =>
    intro acc hacc
    exact ih _ (pairwise_insertAfterTies key x acc hacc)

theorem mem_stableSortBy {α : Type} (gt : α → α → Bool) (l : List α) (a : α) :
    a ∈ stableSortBy gt l ↔ a ∈ l := by
  unfold stableSortBy
  suffices h : ∀ (m acc : List α),
      (a ∈ m.foldl (fun acc x => insertAfterTies gt x acc) acc ↔
        a ∈ acc ∨ a ∈ m) by
    simpa using h l []
  intro m
  induction m with
  | nil => intro acc; simp
  | cons x xs ih =>
    intro acc
    rw [List.foldl_cons, ih, mem_insertAfterTies]
    simp only [List.mem_cons]
    tauto

theorem stableSortBy_nil {α : Type} (gt : α → α → Bool) :
    stableSortBy gt [] = [] := rfl

theorem mem_setAssoc {β : Type} (k : String) (v : β) (kv : String × β) :
    ∀ l : List (String × β), kv ∈ setAssoc l k v → kv = (k, v) ∨ kv ∈ l
  | [], h => by simpa [setAssoc] using h
  | (k', v') :: rest, h => by
    simp only [setAssoc] at h
    by_cases hk : k' = k
    · rw [if_pos hk] at h
      rcases List.mem_cons.mp h with rfl | hm
      · exact Or.inl (by rw [hk])
      · exact Or.inr (List.mem_cons_of_mem _ hm)
    · rw [if_neg hk] at h
      rcases List.mem_cons.mp h with rfl | hm
      · exact Or.inr (List.mem_cons_self _ _)
      · rcases mem_setAssoc k v kv rest hm with h1 | h2
        · exact Or.inl h1
        · exact Or.inr (List.mem_cons_of_mem _ h2)

theorem mem_updateAssoc (k : String) (f : ScoreEntry → ScoreEntry)
    (kv : String × ScoreEntry) :
    ∀ l : List (String × ScoreEntry), kv ∈ updateAssoc l k f →
      kv.1 = k ∨ ∃ kv' ∈ l, kv'.1 = kv.1
  | [], h => by
    have : kv = (k, f {}) := by simpa [updateAssoc] using h
    exact Or.inl (by rw [this])
  | (k', v') :: rest, h => by
    simp only [updateAssoc] at h
    by_cases hk : k' = k
    · rw [if_pos hk] at h
      rcases List.mem_cons.mp h with rfl | hm
      · exact Or.inl hk
      · exact Or.inr ⟨kv, List.mem_cons_of_mem _ hm, rfl⟩
    · rw [if_neg hk] at h
      rcases List.mem_cons.mp h with rfl | hm
      · exact Or.inr ⟨(k', v'), List.mem_cons_self _ _, rfl⟩
      · rcases mem_updateAssoc k f kv rest hm with h1 | ⟨kv', hkv', he⟩
        · exact Or.inl h1
        · exact Or.inr ⟨kv', List.mem_cons_of_mem _ hkv', he⟩

theorem foldl_mem_prov {α β : Type} (f : List β → α → List β) (P : α → β → Prop)
    (hf : ∀ acc x kv, kv ∈ f acc x → P x kv ∨ kv ∈ acc) :
    ∀ (l : List α) (acc : List β) (kv : β), kv ∈ l.foldl f acc →
      (∃ x ∈ l, P x kv) ∨ kv ∈ acc
  | [], _, _, h => Or.inr h
  | x :: xs, acc, kv, h => by
    rcases foldl_mem_prov f P hf xs (f acc x) kv h with ⟨x', hx', hp⟩ | hin
    · exact Or.inl ⟨x', List.mem_cons_of_mem _ hx', hp⟩
    · rcases hf acc x kv hin with hp | hacc
      · exact Or.inl ⟨x, List.mem_cons_self _ _, hp⟩
      · exact Or.inr hacc

theorem foldl_key_prov {α β κ : Type} (f : List β → α → List β) (key : β → κ)
    (P : α → κ → Prop)
    (hf : ∀ acc x kv, kv ∈ f acc x →
      P x (key kv) ∨ ∃ kv' ∈ acc, key kv' = key kv) :
    ∀ (l : List α) (acc : List β) (kv : β), kv ∈ l.foldl f acc →
      (∃ x ∈ l, P x (key kv)) ∨ ∃ kv' ∈ acc, key kv' = key kv
  | [], _, kv, h => Or.inr ⟨kv, h, rfl⟩
  | x :: xs, acc, kv, h => by
    rcases foldl_key_prov f key P hf xs (f acc x) kv h with ⟨x', hx', hp⟩ | ⟨kv', hkv', he⟩
    · exact Or.inl ⟨x', List.mem_cons_of_mem _ hx', hp⟩
    · rcases hf acc x kv' hkv' with hp | ⟨kv'', hkv'', he''⟩
      · rw [he] at hp
        exact Or.inl ⟨x, List.mem_cons_self _ _, hp⟩
      · exact Or.inr ⟨kv'', hkv'', by rw [he'', he]⟩

theorem processChamp_key_prov (lg : Nat → ℚ) (tw : ℚ)
    (pname tier prole : String) (ms : List Mastery)
    (otpName mainName : Option String)
    (acc : List (String × ScoreEntry)) (ic : Nat × Champ)
    (kv : String × ScoreEntry)
    (h : kv ∈ processChamp lg tw pname tier prole ms otpName mainName acc ic) :
    (kv.1 = ic.2.champion_name ∧ 3 ≤ ic.2.games) ∨ ∃ kv' ∈ acc, kv'.1 = kv.1 := by
  unfold processChamp at h
  by_cases hg : ic.2.games < 3
  · rw [if_pos hg] at h
    exact Or.inr ⟨kv, h, rfl⟩
  · rw [if_neg hg] at h
    rcases mem_updateAssoc _ _ kv acc h with h1 | h2
    · exact Or.inl ⟨h1, by omega⟩
    · exact Or.inr h2

theorem processPlayer_key_prov (lg : Nat → ℚ)
    (acc : List (String × ScoreEntry)) (p : Player) (kv : String × ScoreEntry)
    (h : kv ∈ processPlayer lg acc p) :
    (∃ s, p.stats = some s ∧ ∃ c ∈ s.champions.take 10,
        kv.1 = c.champion_name ∧ 3 ≤ c.games)
    ∨ ∃ kv' ∈ acc, kv'.1 = kv.1 := by
  unfold processPlayer at h
  cases hs : p.stats with
  | none =>
    rw [hs] at h
    exact Or.inr ⟨kv, h, rfl⟩
  | some s =>
    rw [hs] at h
    rcases foldl_key_prov _ (fun kv => kv.1)
        (fun ic k => k = ic.2.champion_name ∧ 3 ≤ ic.2.games)
        (fun acc x kv hm => processChamp_key_prov _ _ _ _ _ _ _ _ acc x kv hm)
        _ acc kv h with ⟨ic, hic, hp⟩ | h2
    · refine Or.inl ⟨s, rfl, ic.2, ?_, hp⟩
      have hmap := List.enum_map_snd (s.champions.take 10)
      rw [← hmap]
      exact List.mem_map.mpr ⟨ic, hic, rfl⟩
    · exact Or.inr h2

theorem get_ban_prov (lg : Nat → ℚ) (team : Team) (n : Nat) (r : BanRec)
    (h : r ∈ get_ban_recommendations lg team n) :
    ∃ p ∈ team.players, ∃ s, p.stats = some s ∧
      ∃ c ∈ s.champions.take 10, c.champion_name = r.champion_name ∧ 3 ≤ c.games := by
  unfold get_ban_recommendations at h
  have h1 := List.mem_of_mem_take h
  rw [mem_stableSortBy] at h1
  rcases List.mem_map.mp h1 with ⟨kv, hkv, hmk⟩
  have hname : r.champion_name = kv.1 := by rw [← hmk]
  rcases foldl_key_prov (processPlayer lg) (fun kv => kv.1)
      (fun p k => ∃ s, p.stats = some s ∧ ∃ c ∈ s.champions.take 10,
        k = c.champion_name ∧ 3 ≤ c.games)
      (fun acc p kv hm => processPlayer_key_prov lg acc p kv hm)
      team.players [] kv hkv with ⟨p, hp, s, hs, c, hc, hn, hg⟩ | ⟨kv', hkv', _⟩
  · exact ⟨p, hp, s, hs, c, hc, by rw [hname, hn], hg⟩
  · exact absurd hkv' (List.not_mem_nil _)

theorem foldl_processPlayer_null (lg : Nat → ℚ) :
    ∀ (l : List Player) (acc : List (String × ScoreEntry)),
      (∀ p ∈ l, p.stats = none) → l.foldl (processPlayer lg) acc = acc
  | [], _, _ => rfl
  | p :: ps, acc, h => by
    have hp : p.stats = none := h p (List.mem_cons_self _ _)
    have hstep : processPlayer lg acc p = acc := by
      unfold processPlayer
      rw [hp]
    rw [List.foldl_cons, hstep]
    exact foldl_processPlayer_null lg ps acc
      (fun q hq => h q (List.mem_cons_of_mem _ hq))

theorem foldl_identifyStep_null :
    ∀ (l : List Player) (acc : List OneTrick),
      (∀ p ∈ l, p.stats = none) → l.foldl identifyStep acc = acc
  | [], _, _ => rfl
  | p :: ps, acc, h => by
    have hp : p.stats = none := h p (List.mem_cons_self _ _)
    have hstep : identifyStep acc p = acc := by
      unfold identifyStep
      rw [hp]
    rw [List.foldl_cons, hstep]
    exact foldl_identifyStep_null ps acc
      (fun q hq => h q (List.mem_cons_of_mem _ hq))

theorem pickStep_prov (lg : Nat → ℚ) (lb : List String)
    (om : List (String × MainInfo)) (oc : List (String × List (String × ℚ)))
    (sn : List String) (acc : List (String × List Pick)) (p : Player)
    (kv : String × List Pick)
    (h : kv ∈ pickStep lg lb om oc sn acc p) :
    (kv.1 ≠ "fill" ∧ p.role = some kv.1 ∧ p.stats.isSome = true ∧
      kv.2.length ≤ 5) ∨ kv ∈ acc := by
  unfold pickStep at h
  split at h
  · exact Or.inr h
  · rename_i s hs
    by_cases hrole : p.role.getD "fill" = "fill"
    · rw [if_pos hrole] at h
      exact Or.inr h
    · rw [if_neg hrole] at h
      rcases mem_setAssoc _ _ kv _ h with rfl | hm
      · have htake : ∀ m : List Pick, (m.take 5).length ≤ 5 := by
          intro m
          rw [List.length_take]
          exact min_le_left _ _
        refine Or.inl ⟨hrole, ?_, by rw [hs]; rfl, htake _⟩
        cases hr : p.role with
        | none =>
          rw [hr] at hrole
          exact absurd rfl hrole
        | some rr => rfl
      · exact Or.inr hm

theorem roundHalfEven_intCast (n : ℤ) : roundHalfEven (n : ℚ) = n := by
  unfold roundHalfEven
  norm_num [Int.floor_intCast]

theorem pyRound_idem (q : ℚ) (d : Nat) : pyRound (pyRound q d) d = pyRound q d := by
  unfold pyRound
  rw [div_mul_cancel₀ _ (pow_ne_zero d (by norm_num : (10:ℚ) ≠ 0)),
    roundHalfEven_intCast]

theorem fetchLoop_succ (oracle : Nat → Resp) (rem made : Nat)
    (lastErr : Option String) :
    fetchLoop oracle (rem + 1) made lastErr =
      match oracle made with
      | .http s body =>
        if s = 429 then fetchLoop oracle rem (made + 1) lastErr
        else if s = 403 then (.error .blocked, made + 1)
        else if 400 ≤ s then
          fetchLoop oracle rem (made + 1) (some ("HTTP " ++ toString s))
        else (.ok body, made + 1)
      | .transport msg => fetchLoop oracle rem (made + 1) (some msg) := rfl

theorem masteryBonus_points_ge (masteries : List Mastery) (c : Champ)
    (player_role : String)
    (h : masteryBonusApplies masteries c player_role = true) :
    10000 ≤ masteryBonusPoints masteries c := by
  unfold masteryBonusApplies at h
  unfold masteryBonusPoints
  rcases hml : masteryLookup masteries c.champion_name with _ | m
  · rw [hml] at h
    simp at h
  · rw [hml] at h
    simp only [Bool.and_eq_true, decide_eq_true_eq] at h
    exact h.1

theorem champScore_eq_weight_mul (lg : Nat → ℚ) (w : ℚ) (player_role : String)
    (masteries : List Mastery) (otpName mainName : Option String)
    (i : Nat) (c : Champ) :
    champScore lg w player_role masteries otpName mainName i c =
      w * champFactor lg player_role masteries otpName mainName i c := by
  simp only [champScore, champFactor]
  split_ifs <;> ring

theorem champFactor_nonneg (lg : Nat → ℚ)
    (hlg : ∀ n : Nat, 10000 ≤ n → 0 ≤ lg n) (player_role : String)
    (masteries : List Mastery) (otpName mainName : Option String)
    (i : Nat) (c : Champ) :
    0 ≤ champFactor lg player_role masteries otpName mainName i c := by
  simp only [champFactor]
  have hslot : (0:ℚ) ≤ if i = 0 then (3/2:ℚ) else if i = 1 then 6/5 else 1 := by
    split_ifs <;> norm_num
  have hbase : (0:ℚ) ≤
      (c.games : ℚ) * if i = 0 then (3/2:ℚ) else if i = 1 then 6/5 else 1 :=
    mul_nonneg (Nat.cast_nonneg _) hslot
  refine mul_nonneg (by split_ifs <;> norm_num) ?_
  by_cases hgate : masteryBonusApplies masteries c player_role = true
  · rw [if_pos hgate]
    refine add_nonneg hbase ?_
    exact mul_nonneg
      (hlg _ (le_trans (masteryBonus_points_ge _ _ _ hgate) (le_max_left _ _)))
      (by norm_num)
  · rw [if_neg hgate]
    exact hbase

/-! # Claim theorems -/

/-- C1: for every pair of (well-formed) team inputs and every counter-data
source, `get_pick_recommendations` returns a mapping keyed by the non-fill
roles of own-team players that have a stats snapshot, with at most five
picks per role, and completes for all inputs (it is a total function of
this embedding); absent optional data contributes zero: with no counter
entry and no mastery, a candidate's score is exactly the ranked-volume
term. -/
theorem claim_C1_pick_total (lg : Nat → ℚ)
    (counters : String → String → List (String × ℚ))
    (my_team opponent_team : Team) :
    (∀ rp ∈ get_pick_recommendations lg counters my_team opponent_team,
        rp.1 ≠ "fill" ∧ rp.2.length ≤ 5 ∧
        ∃ p ∈ my_team.players, p.role = some rp.1 ∧ p.stats.isSome = true)
    ∧ ∀ (oppW : ℚ) (games : Nat),
        pickScore lg oppW none 0 games false = min ((games : ℚ) * (1/2)) 10 := by
  constructor
  · intro rp hrp
    unfold get_pick_recommendations at hrp
    rcases foldl_mem_prov _
        (fun p kv => kv.1 ≠ "fill" ∧ p.role = some kv.1 ∧
          p.stats.isSome = true ∧ kv.2.length ≤ 5)
        (fun acc p kv hm => pickStep_prov _ _ _ _ _ acc p kv hm)
        my_team.players [] rp hrp with ⟨p, hp, h1, h2, h3, h4⟩ | hf
    · exact ⟨h1, h4, p, hp, h2, h3⟩
    · exact absurd hf (List.not_mem_nil _)
  · intro oppW games
    simp [pickScore]

/-- C1 witness: a concrete one-player own team against an empty opponent
team yields the mid-role entry with its single volume-scored pick. -/
theorem claim_C1_witness :
    ("mid" ≠ "fill" ∧ ([miniPick] : List Pick).length ≤ 5 ∧
      ∃ p ∈ miniMyTeam.players, p.role = some "mid" ∧ p.stats.isSome = true) :=
  (claim_C1_pick_total (fun _ => 0) (fun _ _ => []) miniMyTeam emptyTeam).1
    ("mid", [miniPick]) (by with_unfolding_all exact of_decide_eq_true rfl)

/-- C2 (amended): `scrape_player` always returns a snapshot (it is a total
function of this embedding); the diagnostic contains exactly one entry per
failing sub-fetch among the four error-reported ones (tier resolution,
season history, champion stats, masteries), joined by "; " — while a
role-inference failure is swallowed and never contributes an entry. -/
theorem claim_C2_reconciler_errors (now gn tl : String)
    (tr : Except String TierData) (rr : Except String (List (Int × String)))
    (hr : Except String HistoryData) (cr : Except String ChampData)
    (mr : Except String (List Mastery)) :
    (scrapePlayerErrors tr hr cr mr).length =
      ([exceptFailed tr, exceptFailed hr, exceptFailed cr,
        exceptFailed mr].count true)
    ∧ (scrape_player now gn tl tr rr hr cr mr).scrape_error =
        (if scrapePlayerErrors tr hr cr mr = [] then none
         else some (String.intercalate "; " (scrapePlayerErrors tr hr cr mr)))
    ∧ ∀ rr' : Except String (List (Int × String)),
        (scrape_player now gn tl tr rr' hr cr mr).scrape_error =
          (scrape_player now gn tl tr rr hr cr mr).scrape_error := by
  refine ⟨?_, rfl, fun rr' => rfl⟩
  cases tr <;> cases hr <;> cases cr <;> cases mr <;> rfl

/-- C2 counterexample: forcing exactly one of the five sub-fetches — the
role-inference one — to fail leaves `scrape_error` null (zero entries),
contradicting the claim's "exactly N failure entries" for N = 1. -/
theorem claim_C2_counterexample :
    (scrape_player "t" "a" "b" (.ok {}) (.error "boom") (.ok {}) (.ok {})
      (.ok [])).scrape_error = none
    ∧ errorEntryCount (scrape_player "t" "a" "b" (.ok {}) (.error "boom")
        (.ok {}) (.ok {}) (.ok [])).scrape_error = 0 :=
  ⟨rfl, rfl⟩

/-- C3 (code bug): a decoy `]` inside a string value of a validly embedded,
one-level-escaped JSON array makes the raw bracket scan of
`scrape_masteries`/`scrape_champions` stop early: the located span,
after unescaping, is a truncated non-array rather than the original
array content. -/
theorem claim_C3_code_bug :
    decoyPage = "xx\\\"masteries\\\":".toList ++ escapeQuotes decoyArray
        ++ " tail".toList
    ∧ extractMasteriesSpan decoyPage =
        some ("[\x7b\"champion_name\":\"a]".toList)
    ∧ extractMasteriesSpan decoyPage ≠ some decoyArray :=
  ⟨rfl, by decide, by decide⟩

/-- C4: a first-response HTTP 403 fails at once as the distinct blocked
error after exactly one request; when every response in the budget is
rate-limited (429) or a transport error, the failure surfaces only after
all `MAX_RETRIES = 3` attempts. -/
theorem claim_C4_fetch_classification (oracle : Nat → Resp) :
    ((∃ b, oracle 0 = .http 403 b) → fetch oracle = (.error .blocked, 1))
    ∧ ((∀ i, i < MAX_RETRIES → retryableResp (oracle i) = true) →
        ∃ e, fetch oracle = (.error (.failedAfterRetries e), 3)) := by
  constructor
  · rintro ⟨b, hb⟩
    simp [fetch, MAX_RETRIES, fetchLoop, hb]
  · intro hretry
    have key : ∀ (remaining made : Nat) (lastErr : Option String),
        (∀ i, i < remaining → retryableResp (oracle (made + i)) = true) →
        ∃ e, fetchLoop oracle remaining made lastErr =
          (.error (.failedAfterRetries e), made + remaining) := by
      intro remaining
      induction remaining with
      | zero => intro made lastErr _; exact ⟨lastErr, rfl⟩
      | succ rem ih =>
        intro made lastErr h
        have h0 := h 0 (Nat.succ_pos _)
        rw [Nat.add_zero] at h0
        have hshift : ∀ i, i < rem → retryableResp (oracle (made + 1 + i)) = true := by
          intro i hi
          have := h (i + 1) (by omega)
          rwa [show made + (i + 1) = made + 1 + i by omega] at this
        cases ho : oracle made with
        | http s body =>
          rw [ho] at h0
          have hs : s = 429 := by simpa [retryableResp] using h0
          subst hs
          have step : fetchLoop oracle (rem + 1) made lastErr =
              fetchLoop oracle rem (made + 1) lastErr := by
            rw [fetchLoop_succ, ho]
            simp
          rcases ih (made + 1) lastErr hshift with ⟨e, he⟩
          refine ⟨e, ?_⟩
          rw [step, he]
          congr 1
          omega
        | transport msg =>
          have step : fetchLoop oracle (rem + 1) made lastErr =
              fetchLoop oracle rem (made + 1) (some msg) := by
            rw [fetchLoop_succ, ho]
          rcases ih (made + 1) (some msg) hshift with ⟨e, he⟩
          refine ⟨e, ?_⟩
          rw [step, he]
          congr 1
          omega
    rcases key MAX_RETRIES 0 none
        (fun i hi => by rw [Nat.zero_add]; exact hretry i hi) with ⟨e, he⟩
    refine ⟨e, ?_⟩
    rw [show fetch oracle = fetchLoop oracle MAX_RETRIES 0 none from rfl, he]
    simp [MAX_RETRIES]

/-- C4 witness: a 403 oracle is blocked after one request; an oracle that
always times out surfaces a failure after the 3-attempt budget. -/
theorem claim_C4_witness :
    fetch oracle403 = (.error .blocked, 1)
    ∧ ∃ e, fetch oracleDown = (.error (.failedAfterRetries e), 3) :=
  ⟨(claim_C4_fetch_classification oracle403).1 ⟨"blocked page", rfl⟩,
   (claim_C4_fetch_classification oracleDown).2 (fun _ _ => rfl)⟩

/-- C5 (amended): the OTP/MAIN/untagged classification inside
`get_ban_recommendations` agrees with the one of `identify_one_tricks`
whenever the sorted champion list has fewer than two entries or its
second entry has at least one game; they disagree exactly on pools whose
second champion has zero games (see the counterexample). The season total
plays no part in either tag. -/
theorem claim_C5_tag_agreement (champs : List Champ)
    (h : ∀ c0 c1 rest, sortByGamesDesc champs = c0 :: c1 :: rest →
      0 < c1.games) :
    banTag champs = identifyTag champs := by
  unfold banTag banDetect identifyTag
  cases hs : sortByGamesDesc champs with
  | nil => rfl
  | cons c0 rest =>
    cases rest with
    | nil =>
      simp only [identifyTagCore]
      have hno2 : ¬(c0.games ≥ 20 ∧ 0 < 0 ∧
          otpRatio c0.games ≤ (c0.games : ℚ) / ((0 : Nat) : ℚ)) :=
        fun hcon => Nat.lt_irrefl 0 hcon.2.1
      have hno3 : ¬(c0.games ≥ 10 ∧ 0 < 0 ∧
          mainRatio c0.games ≤ (c0.games : ℚ) / ((0 : Nat) : ℚ)) :=
        fun hcon => Nat.lt_irrefl 0 hcon.2.1
      by_cases h20 : c0.games ≥ 20
      · rw [if_pos h20, if_neg hno2, if_pos ⟨h20, trivial⟩]
      · rw [if_neg h20, if_neg hno2, if_neg (fun hcon => h20 hcon.1),
          if_neg hno3]
    | cons c1 rest2 =>
      have hpos : 0 < c1.games := h c0 c1 rest2 hs
      simp only [identifyTagCore]
      split_ifs <;> first | rfl | omega

/-- C5 counterexample: a pool `[25 games, 0 games]` is untagged by the ban
scorer but tagged OTP by `identify_one_tricks`, so the two classifications
are not one reused diagnostic. -/
theorem claim_C5_counterexample :
    banTag [champA25, champB0] ≠ identifyTag [champA25, champB0] := by
  with_unfolding_all exact of_decide_eq_true rfl

/-- C5 witness: on a pool whose second champion has games, the two
classifications agree. -/
theorem claim_C5_witness :
    banTag [champA25, champB5] = identifyTag [champA25, champB5] :=
  claim_C5_tag_agreement [champA25, champB5] (by
    intro c0 c1 rest hs
    rw [show sortByGamesDesc [champA25, champB5] = [champA25, champB5]
      from rfl] at hs
    injection hs with h1 h2
    injection h2 with h3 h4
    subst h3
    exact Nat.succ_pos 4)

/-- C6: the per-champion ban-score contribution is monotonically
non-decreasing in tier weight, holding the champion stat line, masteries,
role and OTP/Main tags fixed — using only that `log10` is non-negative on
the gated mastery domain (≥ 10000 points). -/
theorem claim_C6_tier_monotone (lg : Nat → ℚ)
    (hlg : ∀ n : Nat, 10000 ≤ n → 0 ≤ lg n)
    (t1 t2 : String) (hw : tierWeight t1 ≤ tierWeight t2)
    (player_role : String) (masteries : List Mastery)
    (otpName mainName : Option String) (i : Nat) (c : Champ) :
    champScore lg (tierWeight t1) player_role masteries otpName mainName i c ≤
      champScore lg (tierWeight t2) player_role masteries otpName mainName i c := by
  rw [champScore_eq_weight_mul, champScore_eq_weight_mul]
  exact mul_le_mul_of_nonneg_right hw
    (champFactor_nonneg lg hlg player_role masteries otpName mainName i c)

/-- C6 witness: a BRONZE stat line never outscores the identical
CHALLENGER stat line. -/
theorem claim_C6_witness :
    champScore (fun _ => 4) (tierWeight "BRONZE") "" [] none none 0
        witnessChamp ≤
      champScore (fun _ => 4) (tierWeight "CHALLENGER") "" [] none none 0
        witnessChamp :=
  claim_C6_tier_monotone (fun _ => 4) (fun _ _ => by norm_num)
    "BRONZE" "CHALLENGER" (by with_unfolding_all exact of_decide_eq_true rfl)
    "" [] none none 0 witnessChamp

/-- C7: every champion record produced by `scrape_champions` from a raw
entry with positive games and a zero-or-missing reported win rate carries
`winrate = round(wins / games * 100, 1)`. -/
theorem claim_C7_winrate_backfill (role_map : List (Int × String))
    (static_roles : String → List String) (c : RawChamp) (g : Nat)
    (rec : Champ) (hplay : c.play = some g) (hg : 0 < g)
    (hwr : c.win_rate = none ∨ c.win_rate = some 0)
    (hnorm : normalizeChamp role_map static_roles c = some rec) :
    rec.winrate = pyRound (((c.win.getD 0 : Nat) : ℚ) / (g : ℚ) * 100) 1 := by
  have h0 : c.win_rate.getD 0 = 0 := by
    rcases hwr with h | h <;> rw [h] <;> rfl
  unfold normalizeChamp at hnorm
  rw [hplay] at hnorm
  have hnorm2 : (if rawChampId c = 0 then (none : Option Champ)
      else some (buildChamp role_map static_roles c g)) = some rec := hnorm
  by_cases hcid : rawChampId c = 0
  · rw [if_pos hcid] at hnorm2
    exact absurd hnorm2 (by simp)
  · rw [if_neg hcid] at hnorm2
    obtain rfl : buildChamp role_map static_roles c g = rec :=
      Option.some_inj.mp hnorm2
    show pyRound (backfillWinrate c.win_rate (c.win.getD 0) g) 1 = _
    unfold backfillWinrate
    rw [if_pos ⟨h0, hg⟩]
    exact pyRound_idem _ 1

/-- C7 witness: a 25-game, 15-win raw entry with no reported win rate
normalizes to winrate 60.0. -/
theorem claim_C7_witness :
    ekkoRec.winrate =
      pyRound (((rawEkko.win.getD 0 : Nat) : ℚ) / ((25 : Nat) : ℚ) * 100) 1
    ∧ ekkoRec.winrate = 60 :=
  ⟨claim_C7_winrate_backfill [] (fun _ => []) rawEkko 25 ekkoRec rfl
      (by norm_num) (Or.inl rfl) (by with_unfolding_all rfl),
   by with_unfolding_all rfl⟩

/-- C8: in the spec's example scenario the CHALLENGER player's 25-game
60%-winrate Azir is classified OTP and receives ban score 86.2, strictly
above the 37.1 of the GOLD player's identical non-OTP stat line. -/
theorem claim_C8_scenario :
    banDetect [azir, xerath] = (some "Azir", none)
    ∧ scoreOf (get_ban_recommendations (fun _ => 0) scenarioTeam 5) "Azir" =
        some (431/5)
    ∧ scoreOf (get_ban_recommendations (fun _ => 0) scenarioTeam 5) "Taliyah" =
        some (371/10)
    ∧ ((371 : ℚ)/10 < 431/5) := by
  refine ⟨by with_unfolding_all rfl, by with_unfolding_all rfl,
    by with_unfolding_all rfl, by norm_num⟩

/-- C9 (amended): the ban list is the accumulated per-champion scores in
descending order, truncated to at most `2 * num_bans` entries (fewer when
fewer champions score), and every listed champion stems from some
player's top-10 champions with at least 3 games. -/
theorem claim_C9_ban_list_shape (lg : Nat → ℚ) (team : Team) (n : Nat) :
    (get_ban_recommendations lg team n).Pairwise (fun a b => b.score ≤ a.score)
    ∧ (get_ban_recommendations lg team n).length ≤ n * 2
    ∧ ∀ r ∈ get_ban_recommendations lg team n,
        ∃ p ∈ team.players, ∃ s, p.stats = some s ∧
          ∃ c ∈ s.champions.take 10,
            c.champion_name = r.champion_name ∧ 3 ≤ c.games := by
  refine ⟨?_, ?_, fun r hr => get_ban_prov lg team n r hr⟩
  · unfold get_ban_recommendations
    exact List.Pairwise.sublist (List.take_sublist _ _)
      (pairwise_stableSortBy (fun r : BanRec => r.score) _)
  · unfold get_ban_recommendations
    rw [List.length_take]
    exact min_le_left _ _

/-- C9 counterexample: a team with a single scored champion yields one
entry, not `2 * 5` entries, refuting the exact-count reading. -/
theorem claim_C9_counterexample :
    (get_ban_recommendations (fun _ => 0) smallTeam 5).length ≠ 5 * 2 := by
  with_unfolding_all exact of_decide_eq_true rfl

/-- C9 witness: the Azir entry of the scenario team's ban list does come
from a top-10, ≥3-games champion of an opposing player. -/
theorem claim_C9_witness :
    ∃ p ∈ scenarioTeam.players, ∃ s, p.stats = some s ∧
      ∃ c ∈ s.champions.take 10,
        c.champion_name = azirBanRec.champion_name ∧ 3 ≤ c.games :=
  (claim_C9_ban_list_shape (fun _ => 0) scenarioTeam 5).2.2 azirBanRec
    (by with_unfolding_all exact of_decide_eq_true rfl)

/-- C10: players with a null stats snapshot are skipped by both
`get_ban_recommendations` and `identify_one_tricks`; an all-null team
yields empty results rather than an error. -/
theorem claim_C10_null_stats (lg : Nat → ℚ) (team : Team) (n : Nat)
    (h : ∀ p ∈ team.players, p.stats = none) :
    get_ban_recommendations lg team n = [] ∧ identify_one_tricks team = [] := by
  constructor
  · unfold get_ban_recommendations
    rw [foldl_processPlayer_null lg team.players [] h]
    simp [stableSortBy_nil]
  · unfold identify_one_tricks
    exact foldl_identifyStep_null team.players [] h

/-- C10 witness: the two-player all-null team produces empty ban and
one-trick lists. -/
theorem claim_C10_witness :
    get_ban_recommendations (fun _ => 0) nullStatsTeam 5 = []
    ∧ identify_one_tricks nullStatsTeam = [] :=
  claim_C10_null_stats (fun _ => 0) nullStatsTeam 5 (by decide)

end LolScout
